import Mathlib

/-!
Verification of the cache-coherence and realtime-propagation layer of the
stellaris-crm repository, as a shallow embedding in Lean 4.

Sources embedded here:
- `src/app/dashboard/tasks/components/task-board.tsx` (Kanban board: column
  projection, `onDragOver`, `onDragEnd`, dnd-kit `arrayMove`);
- the tasks page (`TasksPage`) realtime handlers and `AddTaskDialog` success
  callback;
- `src/app/dashboard/leads/page.tsx` realtime handlers;
- `src/hooks/use-supabase-realtime.ts` (channel lifecycle, event dispatch,
  subscribe status callback, null-client guard);
- `src/lib/api-client.ts` (`ApiClient.request` response handling);
- `src/backend/CACHING.md` (namespace invalidation table; the backend Python
  code itself is not part of the snapshot, so that part is modelled from the
  repository's own documentation).
-/

namespace Crm

/-- A task row as used by the Kanban board (`Task` interface in
`task-board.tsx`): `id`, `title`, `status`, `priority` plus the optional
fields. The index-signature catch-all is irrelevant to the claims. -/
structure Task where
  id : String
  title : String
  status : String
  priority : String
  due_date : Option String := none
  assigned_to : Option String := none
  project_id : Option String := none
deriving Repr, DecidableEq

/-- A Kanban column descriptor (`columns` entries in `TaskBoard`). -/
structure BoardColumn where
  id : String
  title : String
deriving Repr, DecidableEq

/-- The fixed column list of `TaskBoard` (`useMemo` constant). -/
def columns : List BoardColumn :=
  [ { id := "todo", title := "To Do" },
    { id := "in_progress", title := "In Progress" },
    { id := "review", title := "Review" },
    { id := "completed", title := "Completed" } ]

/-- The projection rendered into one column:
`tasks.filter((task) => task.status === col.id)` in `TaskBoard`. -/
def columnTasks (tasks : List Task) (col : BoardColumn) : List Task :=
  tasks.filter (fun task => task.status == col.id)

/-- The ids of the four columns. -/
def columnIds : List String := columns.map (fun c => c.id)

/-- In how many of the four rendered columns a given task occurs. -/
def numColumnsOf (tasks : List Task) (t : Task) : Nat :=
  columns.countP (fun c => decide (t ∈ columnTasks tasks c))

/-- The `TasksPage` realtime `onInsert`: `setTasks(prev => [payload.new, ...prev])`. -/
def tasksPageOnInsert (incoming : Task) (prev : List Task) : List Task :=
  incoming :: prev

/-- The `TasksPage` realtime `onUpdate`:
`prev.map(task => task.id === payload.new.id ? payload.new : task)`. -/
def tasksPageOnUpdate (incoming : Task) (prev : List Task) : List Task :=
  prev.map (fun task => if task.id == incoming.id then incoming else task)

/-- The `TasksPage` realtime `onDelete`:
`prev.filter(task => task.id !== payload.old.id)`. -/
def tasksPageOnDelete (oldRow : Task) (prev : List Task) : List Task :=
  prev.filter (fun task => task.id != oldRow.id)

/-- A lead row; the realtime handlers of `LeadsPage` touch only `id`. -/
structure Lead where
  id : String
  name : String := ""
  email : Option String := none
  status : String := ""
deriving Repr, DecidableEq

/-- The `LeadsPage` realtime `onInsert`: checks
`current.some(lead => lead.id === payload.new.id)` and prepends only when the
id is absent. -/
def leadsPageOnInsert (incoming : Lead) (current : List Lead) : List Lead :=
  if current.any (fun lead => lead.id == incoming.id) then current
  else incoming :: current

/-- The `LeadsPage` realtime `onUpdate`. -/
def leadsPageOnUpdate (incoming : Lead) (current : List Lead) : List Lead :=
  current.map (fun lead => if lead.id == incoming.id then incoming else lead)

/-- The `LeadsPage` realtime `onDelete`. -/
def leadsPageOnDelete (oldRow : Lead) (current : List Lead) : List Lead :=
  current.filter (fun lead => lead.id != oldRow.id)

/-- The `AddTaskDialog` `onSuccess` callback on the tasks page:
`setTasks(prev => prev.some(t => t.id === newTask.id) ? prev : [newTask, ...prev])`. -/
def addTaskOnSuccess (newTask : Task) (prev : List Task) : List Task :=
  if prev.any (fun t => t.id == newTask.id) then prev else newTask :: prev

/-- Resolution of a JS `Array.prototype.splice` start argument against an
array of length `len`: negative starts count from the end (clamped at 0),
positive starts are clamped at `len`. -/
def spliceStart (len : Nat) (idx : Int) : Nat :=
  if idx < 0 then ((len : Int) + idx).toNat else min idx.toNat len

/-- dnd-kit `arrayMove(array, from, to)`:
`newArray.splice(to < 0 ? newArray.length + to : to, 0, newArray.splice(from, 1)[0])`.
The ternary is evaluated against the original length (JS evaluates the outer
splice arguments left to right, before the inner splice removes the element).
The out-of-range `fromIdx` case is unreachable from `onDragOver`, whose
element accesses have already succeeded by the time it calls `arrayMove`. -/
def arrayMove (l : List Task) (fromIdx : Nat) (toIdx : Int) : List Task :=
  let rawTo : Int := if toIdx < 0 then (l.length : Int) + toIdx else toIdx
  match l[fromIdx]? with
  | none => l
  | some moved =>
      let rest := l.eraseIdx fromIdx
      rest.insertIdx (spliceStart rest.length rawTo) moved

/-- Handler `onDragOver` of `TaskBoard`, as the pure list transformation performed by
its `setTasks` updater. `none` models the TypeError the handler would raise
when `findIndex` returns `-1` and `tasks[-1].status` is dereferenced; in every
real drag both ids are present and that branch is unreachable. The early
returns (`!over`, same id, non-task active, non-task over) leave the list
untouched. -/
def onDragOver (tasks : List Task) (activeId overId : String)
    (activeIsTask overIsTask : Bool) : Option (List Task) :=
  if activeId == overId then some tasks
  else if !activeIsTask then some tasks
  else if activeIsTask && overIsTask then
    let activeIndex := tasks.findIdx (fun t => t.id == activeId)
    let overIndex := tasks.findIdx (fun t => t.id == overId)
    match tasks[activeIndex]?, tasks[overIndex]? with
    | some activeTask, some overTask =>
        if activeTask.status != overTask.status then
          let updatedTasks := tasks.set activeIndex
            { activeTask with status := overTask.status }
          some (arrayMove updatedTasks activeIndex ((overIndex : Int) - 1))
        else
          some (arrayMove tasks activeIndex (overIndex : Int))
    | _, _ => none
  else some tasks

/-- What `event.over` resolves to in `onDragEnd`: a column droppable, a task
droppable, nothing (`over == null`), or a droppable of some other data type. -/
inductive DropTarget where
  | column (id : String)
  | task (id : String)
  | nothing
  | other
deriving Repr, DecidableEq

/-- The observable outcome of one `onDragEnd` run: the `updateTask` call it
issued (task id and new status), the task list it leaves behind once the
promise settles, and which toast it showed. -/
structure DragEndOutcome where
  apiCall : Option (String × String)
  finalTasks : List Task
  errorShown : Bool
  successToast : Bool
deriving Repr, DecidableEq

/-- The optimistic update of `onDragEnd`:
`tasks.map(t => t.id === activeId ? { ...t, status: newStatus } : t)`. -/
def applyStatusUpdate (tasks : List Task) (activeId newStatus : String) : List Task :=
  tasks.map (fun t => if t.id == activeId then { t with status := newStatus } else t)

/-- The `newStatus` computation of `onDragEnd`: the column id when dropping
over a column, the hovered task's status when dropping over a task, and the
original status otherwise. -/
def dragNewStatus (tasks : List Task) (orig : Task) (target : DropTarget) : String :=
  match target with
  | .column colId => colId
  | .task overId =>
      match tasks.find? (fun t => t.id == overId) with
      | some overTask => overTask.status
      | none => orig.status
  | _ => orig.status

/-- Handler `onDragEnd` of `TaskBoard`. `tasks` is the list the handler closes
over at drop time, `originalTask` the `activeTask` snapshot captured by
`onDragStart`, and `apiSucceeds` whether `apiClient.updateTask` resolves. On
failure the handler runs `setTasks(tasks)`, restoring the closed-over list. -/
def onDragEnd (tasks : List Task) (activeId : String) (activeIsTask : Bool)
    (originalTask : Option Task) (over : DropTarget) (apiSucceeds : Bool) :
    DragEndOutcome :=
  match over with
  | .nothing => { apiCall := none, finalTasks := tasks, errorShown := false, successToast := false }
  | target =>
    match activeIsTask, originalTask with
    | true, some orig =>
        let newStatus := dragNewStatus tasks orig target
        if newStatus != orig.status then
          let updatedTasks := applyStatusUpdate tasks activeId newStatus
          if apiSucceeds then
            { apiCall := some (activeId, newStatus), finalTasks := updatedTasks,
              errorShown := false, successToast := true }
          else
            { apiCall := some (activeId, newStatus), finalTasks := tasks,
              errorShown := true, successToast := false }
        else
          { apiCall := none, finalTasks := tasks, errorShown := false, successToast := false }
    | _, _ => { apiCall := none, finalTasks := tasks, errorShown := false, successToast := false }

/-- The `onDragOver` steps fired while a card is dragged across the cards with
the given ids, threaded through the board state (each `setTasks` re-renders,
so the next handler sees the updated list). -/
def runDragOvers (tasks : List Task) (activeId : String)
    (overIds : List String) : Option (List Task) :=
  overIds.foldlM (fun st overId => onDragOver st activeId overId true true) tasks

/-- A whole drag interaction: `onDragStart` snapshots the dragged task from
the initial list, the hover steps run, then `onDragEnd` fires on the list the
hovers produced. -/
def runDrag (tasks0 : List Task) (activeId : String) (overIds : List String)
    (endTarget : DropTarget) (apiSucceeds : Bool) : Option DragEndOutcome :=
  let originalTask := tasks0.find? (fun t => t.id == activeId)
  (runDragOvers tasks0 activeId overIds).map
    (fun ts => onDragEnd ts activeId true originalTask endTarget apiSucceeds)

/-- Postgres change event types handled by `use-supabase-realtime.ts`. -/
inductive RealtimeEvent where
  | INSERT
  | UPDATE
  | DELETE
deriving Repr, DecidableEq

/-- The parameters of `useSupabaseRealtime` that shape the channel:
`table`, `schema` (default `"public"`), `filter`, `events`. -/
structure HookParams where
  table : String
  schema : String := "public"
  filter : Option String := none
  events : Option (List RealtimeEvent) := none
deriving Repr, DecidableEq

/-- The channel topic string built by the hook. -/
def channelTopic (p : HookParams) : String :=
  "realtime:" ++ p.schema ++ "." ++ p.table

/-- One channel opened by one hook instance via
`supabase.channel(topic).on("postgres_changes", {event, schema, table, filter}, cb)`. -/
structure OpenChannel where
  topic : String
  table : String
  schema : String
  filter : Option String
  events : Option (List RealtimeEvent)
deriving Repr, DecidableEq

/-- The channel a mount of the hook with parameters `p` opens. -/
def mkChannel (p : HookParams) : OpenChannel :=
  { topic := channelTopic p, table := p.table, schema := p.schema,
    filter := p.filter, events := p.events }

/-- What one run of the hook's main effect produces: the channel it opened and
whether it called `.subscribe()`. -/
structure EffectResult where
  channel : Option OpenChannel
  subscribed : Bool
deriving Repr, DecidableEq

/-- The main `useEffect` body of `useSupabaseRealtime`: if the shared
`supabase` client is null it returns immediately; otherwise it creates one
channel and subscribes it. -/
def hookEffect (supabase : Option Unit) (p : HookParams) : EffectResult :=
  match supabase with
  | none => { channel := none, subscribed := false }
  | some _ => { channel := some (mkChannel p), subscribed := true }

/-- Which of the three callback refs the payload handler invokes. -/
inductive CallbackKind where
  | onInsert
  | onUpdate
  | onDelete
deriving Repr, DecidableEq

/-- The `!events || events.includes(e)` guard of the payload handler. -/
def eventAllowed (events : Option (List RealtimeEvent)) (e : RealtimeEvent) : Bool :=
  match events with
  | none => true
  | some es => es.contains e

/-- The payload handler of the hook: matches `payload.eventType` against the
three event kinds and the optional `events` allow-list. -/
def dispatchEvent (events : Option (List RealtimeEvent))
    (eventType : RealtimeEvent) : Option CallbackKind :=
  if eventType == RealtimeEvent.INSERT && eventAllowed events RealtimeEvent.INSERT then
    some CallbackKind.onInsert
  else if eventType == RealtimeEvent.UPDATE && eventAllowed events RealtimeEvent.UPDATE then
    some CallbackKind.onUpdate
  else if eventType == RealtimeEvent.DELETE && eventAllowed events RealtimeEvent.DELETE then
    some CallbackKind.onDelete
  else none

/-- The callbacks an effect run ends up invoking for a stream of incoming
events: none at all when no channel was opened, otherwise one dispatch per
payload delivered on the channel. -/
def deliveredCallbacks (res : EffectResult) (incoming : List RealtimeEvent) :
    List CallbackKind :=
  match res.channel with
  | none => []
  | some ch => incoming.filterMap (fun e => dispatchEvent ch.events e)

/-- Mounting one hook instance on top of the currently open channels: the
effect opens its own channel (when the client exists) and prepends it. No
lookup for an existing channel of the same (table, filter) pair happens
anywhere in the hook. -/
def mountHook (supabase : Option Unit) (channels : List OpenChannel)
    (p : HookParams) : List OpenChannel :=
  match (hookEffect supabase p).channel with
  | some ch => ch :: channels
  | none => channels

/-- The effect cleanup `client.removeChannel(channel)`: removes the channel
instance this mount created. -/
def unmountHook (channels : List OpenChannel) (ch : OpenChannel) : List OpenChannel :=
  channels.eraseP (fun c => decide (c = ch))

/-- Number of open channels for a given (table, filter) pair. -/
def channelsFor (channels : List OpenChannel) (table : String)
    (filter : Option String) : Nat :=
  channels.countP (fun ch => ch.table == table && ch.filter == filter)

/-- Repeated mounting: `n` components mounting the hook with the same parameters. -/
def mountRepeated (supabase : Option Unit) (p : HookParams) : Nat → List OpenChannel
  | 0 => []
  | n + 1 => mountHook supabase (mountRepeated supabase p n) p

/-- The status values the `.subscribe` callback of the hook inspects. -/
inductive SubscribeStatus where
  | SUBSCRIBED
  | CHANNEL_ERROR
  | TIMED_OUT
  | CLOSED
deriving Repr, DecidableEq

/-- The side effects available to the hook's subscribe callback; the source
body consists exclusively of console calls. -/
inductive HookAction where
  | consoleLog (msg : String)
  | consoleError (msg : String)
deriving Repr, DecidableEq

/-- The `.subscribe((status, err) => ...)` callback of the hook: three
independent status checks, each of which only logs. -/
def subscribeStatusCallback (table : String) (status : SubscribeStatus) :
    List HookAction :=
  (if status == SubscribeStatus.SUBSCRIBED then
    [HookAction.consoleLog ("Successfully subscribed to realtime channel for " ++ table)]
  else []) ++
  (if status == SubscribeStatus.CHANNEL_ERROR then
    [HookAction.consoleError ("Realtime channel error for " ++ table)]
  else []) ++
  (if status == SubscribeStatus.TIMED_OUT then
    [HookAction.consoleError ("Realtime channel timeout for " ++ table)]
  else [])

/-- Effect of one hook action on the client-held task list: console calls do
not touch it. -/
def applyHookAction (clientTasks : List Task) (a : HookAction) : List Task :=
  match a with
  | .consoleLog _ => clientTasks
  | .consoleError _ => clientTasks

/-- The client task list after the subscribe callback has run for a status
transition (e.g. the `SUBSCRIBED` fired on a reconnect). -/
def runStatusCallback (clientTasks : List Task) (table : String)
    (status : SubscribeStatus) : List Task :=
  (subscribeStatusCallback table status).foldl applyHookAction clientTasks

/-- Function `loadTasks` of `TasksPage`: a cold load replaces the client list with the
list the API returns, i.e. the server's current state. -/
def coldLoad (serverTasks : List Task) : List Task :=
  serverTasks

/-- The cache namespaces listed in `src/backend/CACHING.md`. -/
inductive CacheNamespace where
  | leads
  | tasks
  | clients
  | projects
  | tickets
  | invoices
  | users
  | reports
deriving Repr, DecidableEq

/-- The entity types whose mutations trigger invalidation. -/
inductive EntityType where
  | lead
  | task
  | client
  | project
  | ticket
  | invoice
  | user
deriving Repr, DecidableEq

/-- Modelled from the spec: the backend invalidation code (the fastapi-cache2
namespace purges fired after commits) is not part of the repository snapshot;
this map transcribes the Event-Driven Invalidation table of
`src/backend/CACHING.md` (own namespace plus the `reports` cascade). -/
def invalidationSet : EntityType → List CacheNamespace
  | .lead => [.leads]
  | .task => [.tasks, .reports]
  | .client => [.clients, .reports]
  | .project => [.projects, .reports]
  | .ticket => [.tickets, .reports]
  | .invoice => [.invoices, .reports]
  | .user => [.users]

/-- One cached API response, keyed by namespace and route (parameter and
principal components of the real key are irrelevant to the claims and folded
into `route`). -/
structure CacheEntry where
  ns : CacheNamespace
  route : String
  payload : String
deriving Repr, DecidableEq

/-- Modelled from the spec: a namespace-wide purge deletes every entry of each
named namespace, whatever its route (`CACHING.md`: delete by namespace, not by
enumerating keys). -/
def purgeNamespaces (cache : List CacheEntry) (nss : List CacheNamespace) :
    List CacheEntry :=
  cache.filter (fun e => !(decide (e.ns ∈ nss)))

/-- Modelled from the spec: the cache state after a committed mutation of an
entity of type `et` — every namespace of its invalidation set is purged. -/
def commitMutationPurge (et : EntityType) (cache : List CacheEntry) :
    List CacheEntry :=
  purgeNamespaces cache (invalidationSet et)

/-- The parse result of `response.json()` as far as `ApiClient.request` looks
at it: the optional `detail` field, plus an opaque rest of the payload. -/
structure ResponseBody where
  detail : Option String := none
  rest : String := ""
deriving Repr, DecidableEq

/-- An HTTP response as `request` consumes it: `ok`, `status`, and the body
parse result (`none` when `response.json()` rejects). -/
structure HttpResponse where
  ok : Bool
  status : Nat
  body : Option ResponseBody
deriving Repr, DecidableEq

/-- How one call of `ApiClient.request` resolves: the parsed body on success,
a thrown `Error` with its message, or the rejection of `response.json()` on an
ok response whose body does not parse. -/
inductive RequestOutcome where
  | ok (body : ResponseBody)
  | thrown (msg : String)
  | parseFailure
deriving Repr, DecidableEq

/-- The JS truthiness test applied to `error.detail` by
`error.detail || \x60HTTP ${response.status}\x60`: absent and empty-string
details are falsy. -/
def detailTruthy : Option String → Bool
  | none => false
  | some s => !(s == "")

/-- The error message `request` throws for a non-ok response with parsed
body `b`. -/
def errorMessage (b : ResponseBody) (status : Nat) : String :=
  match b.detail with
  | some s => if s == "" then "HTTP " ++ toString status else s
  | none => "HTTP " ++ toString status

/-- Method `ApiClient.request` response handling: on a non-ok response, parse the
body, falling back to `{ detail: "An error occurred" }` when parsing fails,
and throw `new Error(error.detail || \x60HTTP ${response.status}\x60)`; on an
ok response, return `response.json()`. -/
def request (resp : HttpResponse) : RequestOutcome :=
  if resp.ok = false then
    let error : ResponseBody :=
      match resp.body with
      | some b => b
      | none => { detail := some "An error occurred" }
    .thrown (errorMessage error resp.status)
  else
    match resp.body with
    | some b => .ok b
    | none => .parseFailure

/-! Concrete rows used by witnesses and counterexamples. -/

/-- A task sitting in the `todo` column. -/
def sampleTodoTask : Task :=
  { id := "task-1", title := "Write report", status := "todo", priority := "high" }

/-- A task whose status is `cancelled` — a value the repository's own schema
(`docs/DATABASE_SCHEMA.md`) allows for `tasks.status` but that matches none of
the four board columns. -/
def cancelledTask : Task :=
  { id := "task-9", title := "Archived work", status := "cancelled", priority := "low" }

/-! Shared list lemmas. -/

/-- Inserting an element at an in-range position is, up to permutation,
consing it. -/
theorem insertIdx_perm_cons {α : Type} (a : α) :
    ∀ (n : Nat) (l : List α), n ≤ l.length → (l.insertIdx n a).Perm (a :: l) := by
  intro n
  induction n with
  | zero =>
    intro l _
    simp [List.insertIdx_zero]
  | succ n ih =>
    intro l h
    cases l with
    | nil => simp at h
    | cons b t =>
      rw [List.insertIdx_succ_cons]
      exact ((ih t (by simpa using h)).cons b).trans (List.Perm.swap a b t)

/-- Consing back the element sitting at index `i` onto the list with index `i`
erased is, up to permutation, the original list. -/
theorem cons_eraseIdx_perm {α : Type} (a : α) :
    ∀ (l : List α) (i : Nat), l[i]? = some a → (a :: l.eraseIdx i).Perm l := by
  intro l
  induction l with
  | nil =>
    intro i h
    simp at h
  | cons b t ih =>
    intro i h
    cases i with
    | zero =>
      simp at h
      subst h
      simp [List.eraseIdx]
    | succ i =>
      simp only [List.getElem?_cons_succ] at h
      rw [List.eraseIdx_cons_succ]
      exact (List.Perm.swap b a (t.eraseIdx i)).trans ((ih i h).cons b)

/-- The splice start position never exceeds the array length. -/
theorem spliceStart_le (len : Nat) (idx : Int) : spliceStart len idx ≤ len := by
  unfold spliceStart
  split
  · omega
  · exact Nat.min_le_right _ _

/-- Moving an in-range element with `arrayMove` permutes the list. -/
theorem arrayMove_perm (l : List Task) (i : Nat) (j : Int) (a : Task)
    (h : l[i]? = some a) : (arrayMove l i j).Perm l := by
  unfold arrayMove
  rw [h]
  exact (insertIdx_perm_cons a _ _ (spliceStart_le _ _)).trans (cons_eraseIdx_perm a l i h)

/-! Claim C1. -/

/-- Claim C1, as stated, is false: the Kanban projection filters each column
on `task.status === col.id`, so a task whose status is `cancelled` — a value
the repository's task schema allows — is placed in zero of the four columns,
not exactly one. -/
theorem C1_counterexample :
    cancelledTask ∈ [cancelledTask] ∧ numColumnsOf [cancelledTask] cancelledTask ≠ 1 := by
  constructor
  · simp
  · decide

/-- Claim C1 (amended): the projection places every task of the list in at
most one column, and in exactly one column precisely when its status is one of
the four column ids (`todo`, `in_progress`, `review`, `completed`); a task
with any other status is rendered in no column. -/
theorem C1_column_placement (tasks : List Task) (t : Task) :
    numColumnsOf tasks t ≤ 1 ∧
      (t ∈ tasks → (numColumnsOf tasks t = 1 ↔ t.status ∈ columnIds)) := by
  by_cases ht : t ∈ tasks
  · by_cases h1 : t.status = "todo" <;>
      by_cases h2 : t.status = "in_progress" <;>
        by_cases h3 : t.status = "review" <;>
          by_cases h4 : t.status = "completed" <;>
            simp_all [numColumnsOf, columns, columnIds, columnTasks,
              List.countP_cons, List.mem_filter]
  · simp_all [numColumnsOf, columns, columnIds, columnTasks,
      List.countP_cons, List.mem_filter]

/-- Witness for `C1_column_placement`: a concrete `todo` task in a singleton
list is rendered in exactly one column. -/
theorem C1_column_placement_witness :
    numColumnsOf [sampleTodoTask] sampleTodoTask = 1 :=
  ((C1_column_placement [sampleTodoTask] sampleTodoTask).2 (by simp)).mpr (by decide)

/-! Claim C2. -/

/-- Claim C2, as stated, is false: the tasks page `onInsert` handler prepends
`payload.new` unconditionally, so applying the same INSERT event twice
duplicates the row instead of being a no-op. -/
theorem C2_counterexample :
    tasksPageOnInsert sampleTodoTask (tasksPageOnInsert sampleTodoTask []) ≠
      tasksPageOnInsert sampleTodoTask [] := by
  decide

/-- Claim C2 (amended): the UPDATE and DELETE merge handlers of both realtime
pages are idempotent, keyed by the entity id alone (no commit timestamp exists
anywhere in the client code), and the leads page INSERT handler is idempotent
thanks to its duplicate-id check; the tasks page INSERT handler is the one
exception and is not idempotent. -/
theorem C2_merge_idempotent (t oldT : Task) (prev : List Task)
    (l oldL : Lead) (cur : List Lead) :
    tasksPageOnUpdate t (tasksPageOnUpdate t prev) = tasksPageOnUpdate t prev ∧
    tasksPageOnDelete oldT (tasksPageOnDelete oldT prev) = tasksPageOnDelete oldT prev ∧
    leadsPageOnInsert l (leadsPageOnInsert l cur) = leadsPageOnInsert l cur ∧
    leadsPageOnUpdate l (leadsPageOnUpdate l cur) = leadsPageOnUpdate l cur ∧
    leadsPageOnDelete oldL (leadsPageOnDelete oldL cur) = leadsPageOnDelete oldL cur := by
  refine ⟨?_, ?_, ?_, ?_, ?_⟩
  · unfold tasksPageOnUpdate
    rw [List.map_map]
    refine List.map_congr_left ?_
    intro a _
    by_cases h : a.id = t.id <;> simp [Function.comp, h]
  · simp [tasksPageOnDelete, List.filter_filter]
  · by_cases h : cur.any (fun lead => lead.id == l.id) <;>
      simp [leadsPageOnInsert, h]
  · unfold leadsPageOnUpdate
    rw [List.map_map]
    refine List.map_congr_left ?_
    intro a _
    by_cases h : a.id = l.id <;> simp [Function.comp, h]
  · simp [leadsPageOnDelete, List.filter_filter]

/-! Claim C10. -/

/-- Claim C10: the create-task success callback prepends the new task only
when no task with its id is present, leaves any list already containing the id
unchanged, and in particular is a no-op right after the realtime INSERT echo
has already prepended the same task. -/
theorem C10_create_task_dedup (newTask : Task) (prev : List Task) :
    ((∃ t ∈ prev, t.id = newTask.id) → addTaskOnSuccess newTask prev = prev) ∧
    ((∀ t ∈ prev, t.id ≠ newTask.id) → addTaskOnSuccess newTask prev = newTask :: prev) ∧
    addTaskOnSuccess newTask (tasksPageOnInsert newTask prev) =
      tasksPageOnInsert newTask prev := by
  refine ⟨?_, ?_, ?_⟩
  · intro h
    obtain ⟨t, hmem, hid⟩ := h
    have : prev.any (fun t => t.id == newTask.id) = true := by
      simp [List.any_eq_true]
      exact ⟨t, hmem, hid⟩
    simp [addTaskOnSuccess, this]
  · intro h
    have : prev.any (fun t => t.id == newTask.id) = false := by
      simp [List.any_eq_false]
      exact h
    simp [addTaskOnSuccess, this]
  · simp [addTaskOnSuccess, tasksPageOnInsert]

/-- Witness for `C10_create_task_dedup`: with the sample task already present,
the success callback leaves the list unchanged. -/
theorem C10_create_task_dedup_witness :
    addTaskOnSuccess sampleTodoTask [sampleTodoTask] = [sampleTodoTask] :=
  (C10_create_task_dedup sampleTodoTask [sampleTodoTask]).1
    ⟨sampleTodoTask, by simp, rfl⟩

/-! Claim C3. -/

/-- The hook parameters both tasks-page subscriptions use. -/
def tasksHookParams : HookParams := { table := "tasks" }

/-- Claim C3, as stated, is false: two components mounting
`useSupabaseRealtime` for the same (table, filter) pair hold two underlying
channels, not one — each mount runs its own effect, which unconditionally
creates and subscribes a fresh channel. -/
theorem C3_counterexample :
    channelsFor (mountRepeated (some ()) tasksHookParams 2) "tasks" none ≠ 1 := by
  decide

/-- Claim C3 (amended): there is no multiplexing — `n` mounted subscriptions
to the same (table, filter) pair hold exactly `n` underlying channels, one per
hook instance, and each instance's cleanup removes exactly the channel that
instance opened. -/
theorem C3_channel_per_mount (p : HookParams) (n : Nat) (channels : List OpenChannel) :
    channelsFor (mountRepeated (some ()) p n) p.table p.filter = n ∧
    unmountHook (mountHook (some ()) channels p) (mkChannel p) = channels := by
  constructor
  · induction n with
    | zero => rfl
    | succ n ih =>
      simp only [mountRepeated, mountHook, hookEffect]
      simp [channelsFor, List.countP_cons, mkChannel] at *
      omega
  · simp [mountHook, hookEffect, unmountHook, List.eraseP_cons_of_pos]

/-! Claim C4. -/

/-- The folding of the subscribe callback's actions never changes the client
list, because every action the source callback can produce is a console call. -/
theorem foldl_applyHookAction (clientTasks : List Task) :
    ∀ acts : List HookAction, acts.foldl applyHookAction clientTasks = clientTasks := by
  intro acts
  induction acts generalizing clientTasks with
  | nil => rfl
  | cons a rest ih =>
    cases a <;> simpa [applyHookAction] using ih _

/-- The tasks-page list as it stood when the connection dropped. -/
def clientBeforeGap : List Task :=
  [{ id := "t1", title := "Prepare deck", status := "todo", priority := "medium" }]

/-- The server state after the disconnect: during the gap the row `t1` was
updated to `in_progress` and a row `t2` was inserted; both events were missed. -/
def serverAfterGap : List Task :=
  [{ id := "t1", title := "Prepare deck", status := "in_progress", priority := "medium" },
   { id := "t2", title := "Email client", status := "todo", priority := "low" }]

/-- Claim C4, as stated, is false: on reconnect the hook's subscribe callback
fires with `SUBSCRIBED` and only logs — no channel state is rebuilt and no
re-fetch happens — so after a delivery gap the client list stays as the
partial stream left it and differs from a fresh cold load of the server
state. -/
theorem C4_counterexample :
    runStatusCallback clientBeforeGap "tasks" SubscribeStatus.SUBSCRIBED =
      clientBeforeGap ∧
    runStatusCallback clientBeforeGap "tasks" SubscribeStatus.SUBSCRIBED ≠
      coldLoad serverAfterGap := by
  constructor
  · rfl
  · decide

/-- Claim C4 (amended): the subscription layer performs no resync on
reconnect; for every client list, table and status transition the subscribe
callback leaves the client-held state exactly as it was, so missed events are
never recovered by the hook itself. -/
theorem C4_no_resync (clientTasks : List Task) (table : String)
    (status : SubscribeStatus) :
    runStatusCallback clientTasks table status = clientTasks :=
  foldl_applyHookAction clientTasks _

/-! Claim C8. -/

/-- Claim C8: with the shared supabase client null, the hook's effect is a
no-op for every parameter set — it opens no channel, subscribes nothing, adds
nothing to the open-channel state, and no incoming event ever reaches any of
the three callbacks. -/
theorem C8_null_client_noop (p : HookParams) (incoming : List RealtimeEvent)
    (channels : List OpenChannel) :
    hookEffect none p = { channel := none, subscribed := false } ∧
    deliveredCallbacks (hookEffect none p) incoming = [] ∧
    mountHook none channels p = channels := by
  exact ⟨rfl, rfl, rfl⟩

/-! Claim C7. -/

/-- Claim C7: a committed Invoice mutation purges exactly the entries of its
declared invalidation set — an entry survives the purge precisely when it
lives outside both the `invoices` and the `reports` namespace — so every
previously cached `reports` response (the `/reports/dashboard` payload in
particular) is gone afterwards, whatever route produced it. -/
theorem C7_invoice_invalidation (cache : List CacheEntry) :
    (∀ e : CacheEntry, e ∈ commitMutationPurge EntityType.invoice cache ↔
        (e ∈ cache ∧ e.ns ≠ CacheNamespace.invoices ∧ e.ns ≠ CacheNamespace.reports)) ∧
    (∀ route payload,
        ({ ns := CacheNamespace.reports, route := route, payload := payload } : CacheEntry) ∉
          commitMutationPurge EntityType.invoice cache) := by
  have hmem : ∀ e : CacheEntry, e ∈ commitMutationPurge EntityType.invoice cache ↔
      (e ∈ cache ∧ e.ns ≠ CacheNamespace.invoices ∧ e.ns ≠ CacheNamespace.reports) := by
    intro e
    simp [commitMutationPurge, purgeNamespaces, invalidationSet, List.mem_filter,
      not_or]
  refine ⟨hmem, ?_⟩
  intro route payload hin
  have := (hmem _).mp hin
  simp at this

/-- Witness for `C7_invoice_invalidation`: a cached `/reports/dashboard`
response is no longer in the cache after an Invoice mutation commits, even
though the dashboard endpoint was never called. -/
theorem C7_invoice_invalidation_witness :
    ({ ns := CacheNamespace.reports, route := "/reports/dashboard",
       payload := "stats" } : CacheEntry) ∉
      commitMutationPurge EntityType.invoice
        [{ ns := CacheNamespace.reports, route := "/reports/dashboard",
           payload := "stats" }] :=
  (C7_invoice_invalidation _).2 "/reports/dashboard" "stats"

/-! Claim C9. -/

/-- A 500 response whose body is not valid JSON. -/
def unparseableFailure : HttpResponse := { ok := false, status := 500, body := none }

/-- Claim C9, as stated, is false on the error-message side: for a non-ok
response whose body fails to parse, `request` throws with the catch fallback
message `An error occurred`, not with `HTTP 500`. -/
theorem C9_counterexample :
    request unparseableFailure = RequestOutcome.thrown "An error occurred" ∧
    RequestOutcome.thrown "An error occurred" ≠
      RequestOutcome.thrown ("HTTP " ++ toString 500) := by
  constructor
  · rfl
  · decide

/-- Claim C9 (amended): `request` never returns a non-ok response as a value;
on a non-ok response it throws an Error whose message is the body's `detail`
field when the body parses and `detail` is a truthy string, `HTTP <status>`
when the body parses but `detail` is absent or empty, and `An error occurred`
when the body does not parse; an ok response returns the parsed body when the
body parses and otherwise fails with the `response.json()` rejection. -/
theorem C9_request_behaviour (resp : HttpResponse) :
    (resp.ok = false → ∀ b, request resp ≠ RequestOutcome.ok b) ∧
    (resp.ok = false → ∀ b s, resp.body = some b → b.detail = some s → s ≠ "" →
        request resp = RequestOutcome.thrown s) ∧
    (resp.ok = false → ∀ b, resp.body = some b →
        (b.detail = none ∨ b.detail = some "") →
        request resp = RequestOutcome.thrown ("HTTP " ++ toString resp.status)) ∧
    (resp.ok = false → resp.body = none →
        request resp = RequestOutcome.thrown "An error occurred") ∧
    (resp.ok = true → ∀ b, resp.body = some b → request resp = RequestOutcome.ok b) ∧
    (resp.ok = true → resp.body = none → request resp = RequestOutcome.parseFailure) := by
  refine ⟨?_, ?_, ?_, ?_, ?_, ?_⟩
  · intro hok b
    simp [request, hok]
  · intro hok b s hb hd hs
    simp [request, hok, hb, errorMessage, hd, hs]
  · intro hok b hb hd
    rcases hd with hd | hd <;> simp [request, hok, hb, errorMessage, hd]
  · intro hok hb
    simp [request, hok, hb, errorMessage]
  · intro hok b hb
    simp [request, hok, hb]
  · intro hok hb
    simp [request, hok, hb]

/-- Witness for `C9_request_behaviour`: a 404 whose body carries
`detail = "Task not found"` throws exactly that message. -/
theorem C9_request_behaviour_witness :
    request { ok := false, status := 404,
              body := some { detail := some "Task not found" } } =
      RequestOutcome.thrown "Task not found" :=
  (C9_request_behaviour _).2.1 rfl _ "Task not found" rfl rfl (by decide)

/-! Claim C5. -/

/-- Whatever the drop target and drag metadata, a failed (or absent) API call
leaves `onDragEnd` restoring exactly the list it closed over. -/
theorem onDragEnd_fail_final (tasks : List Task) (activeId : String)
    (activeIsTask : Bool) (originalTask : Option Task) (target : DropTarget) :
    (onDragEnd tasks activeId activeIsTask originalTask target false).finalTasks = tasks := by
  cases target <;> cases activeIsTask <;> cases originalTask <;>
    simp only [onDragEnd] <;> split <;> rfl

/-- The dragged card of the C5 scenario, sitting in `todo`. -/
def draggedTodoTask : Task :=
  { id := "a", title := "Draft spec", status := "todo", priority := "high" }

/-- The card of the `in_progress` column the drag passes over. -/
def hoveredProgressTask : Task :=
  { id := "b", title := "Review spec", status := "in_progress", priority := "medium" }

/-- Claim C5, as stated, is false: drag the `todo` card over the
`in_progress` card and drop it there while `updateTask` fails. The mid-drag
`onDragOver` already rewrote the card's status in the list, so the failure
path's `setTasks(tasks)` restores the drop-time list — in which the card
already carries `in_progress` — and the final state differs from the
pre-drag state even though the error toast was shown. -/
theorem C5_counterexample :
    runDrag [draggedTodoTask, hoveredProgressTask] "a" ["b"]
        (DropTarget.task "b") false =
      some { apiCall := some ("a", "in_progress"),
             finalTasks := [{ draggedTodoTask with status := "in_progress" },
                            hoveredProgressTask],
             errorShown := true, successToast := false } ∧
    [{ draggedTodoTask with status := "in_progress" }, hoveredProgressTask] ≠
      [draggedTodoTask, hoveredProgressTask] := by
  constructor
  · decide
  · decide

/-- Claim C5 (amended): when the cross-column update call fails, `onDragEnd`
rolls the list back to the snapshot it closed over at drop time — undoing its
own optimistic status change — and surfaces the error toast; on success the
optimistically applied status remains (and the success toast shows). The
drop-time snapshot coincides with the pre-drag state whenever no mid-drag
`onDragOver` step ran (for instance a drop directly onto a column), but not
in general, since `onDragOver` may already have moved the card across
columns. -/
theorem C5_rollback (tasks : List Task) (activeId : String) (orig : Task)
    (target : DropTarget) :
    (∀ aid ns,
        (onDragEnd tasks activeId true (some orig) target false).apiCall = some (aid, ns) →
        (onDragEnd tasks activeId true (some orig) target false).finalTasks = tasks ∧
        (onDragEnd tasks activeId true (some orig) target false).errorShown = true) ∧
    (∀ aid ns,
        (onDragEnd tasks activeId true (some orig) target true).apiCall = some (aid, ns) →
        (onDragEnd tasks activeId true (some orig) target true).finalTasks =
          applyStatusUpdate tasks activeId ns ∧
        (onDragEnd tasks activeId true (some orig) target true).errorShown = false ∧
        (onDragEnd tasks activeId true (some orig) target true).successToast = true) ∧
    (∀ endTarget outcome, runDrag tasks activeId [] endTarget false = some outcome →
        outcome.finalTasks = tasks) := by
  refine ⟨?_, ?_, ?_⟩
  · intro aid ns h
    cases target <;> simp only [onDragEnd] at h ⊢ <;> (try split at h) <;> simp_all
  · intro aid ns h
    cases target <;> simp only [onDragEnd] at h ⊢ <;> (try split at h) <;> simp_all
  · intro endTarget outcome h
    simp only [runDrag, runDragOvers, List.foldlM, Option.map] at h
    cases h' : (onDragEnd tasks activeId true
        (tasks.find? (fun t => t.id == activeId)) endTarget false) with
    | mk apiCall finalTasks errorShown successToast =>
      have hfin := onDragEnd_fail_final tasks activeId true
        (tasks.find? (fun t => t.id == activeId)) endTarget
      simp_all

/-- Witness for `C5_rollback`: a failed drop of the sample `todo` card onto
the `in_progress` column rolls the singleton list back and shows the error. -/
theorem C5_rollback_witness :
    (onDragEnd [sampleTodoTask] "task-1" true (some sampleTodoTask)
        (DropTarget.column "in_progress") false).finalTasks = [sampleTodoTask] ∧
    (onDragEnd [sampleTodoTask] "task-1" true (some sampleTodoTask)
        (DropTarget.column "in_progress") false).errorShown = true :=
  (C5_rollback [sampleTodoTask] "task-1" sampleTodoTask
    (DropTarget.column "in_progress")).1 "task-1" "in_progress" (by decide)

/-! Claim C6. -/

/-- A second card of the `todo` column, used by the C6 witness. -/
def secondTodoTask : Task :=
  { id := "task-2", title := "Collect figures", status := "todo", priority := "low" }

/-- Claim C6: hovering a card over another card of its own column reorders
the list into a permutation of itself (same task entities, hence every status
unchanged; `onDragOver` contains no API call in the source), dropping it over
a card of its own column issues no `updateTask` call and leaves the list as
is, and an `updateTask` round trip happens only for a move that changes the
task's status. -/
theorem C6_within_column_reorder (tasks : List Task) (activeId overId : String)
    (a o : Task)
    (ha : tasks[tasks.findIdx (fun t => t.id == activeId)]? = some a)
    (ho : tasks[tasks.findIdx (fun t => t.id == overId)]? = some o)
    (hs : a.status = o.status) :
    (∃ reordered, onDragOver tasks activeId overId true true = some reordered ∧
        reordered.Perm tasks) ∧
    (∀ orig : Task, tasks.find? (fun t => t.id == overId) = some o →
        orig.status = o.status → ∀ apiOk,
        onDragEnd tasks activeId true (some orig) (DropTarget.task overId) apiOk =
          { apiCall := none, finalTasks := tasks, errorShown := false,
            successToast := false }) ∧
    (∀ orig : Task, ∀ target : DropTarget, ∀ apiOk : Bool, ∀ aid ns,
        (onDragEnd tasks activeId true (some orig) target apiOk).apiCall = some (aid, ns) →
        ns ≠ orig.status) := by
  refine ⟨?_, ?_, ?_⟩
  · by_cases hid : activeId = overId
    · exact ⟨tasks, by simp [onDragOver, hid], List.Perm.refl tasks⟩
    · refine ⟨arrayMove tasks (tasks.findIdx (fun t => t.id == activeId))
        ((tasks.findIdx (fun t => t.id == overId) : Int)), ?_, ?_⟩
      · simp only [onDragOver, ha, ho]
        have hbeq : (activeId == overId) = false := by simpa using hid
        have hbne : (a.status != o.status) = false := by simp [hs]
        simp [hbeq, hbne]
      · exact arrayMove_perm tasks _ _ a ha
  · intro orig hfind horig apiOk
    have hns : dragNewStatus tasks orig (DropTarget.task overId) = orig.status := by
      simp [dragNewStatus, hfind, horig]
    simp [onDragEnd, hns]
  · intro orig target apiOk aid ns h
    cases target <;> simp only [onDragEnd] at h <;> (try split at h) <;>
      cases apiOk <;> simp_all

/-- Witness for `C6_within_column_reorder`: dragging the first `todo` card
over the second one permutes the two-card list and a drop there issues no API
call. -/
theorem C6_within_column_reorder_witness :
    (∃ reordered,
        onDragOver [sampleTodoTask, secondTodoTask] "task-1" "task-2" true true =
          some reordered ∧
        reordered.Perm [sampleTodoTask, secondTodoTask]) ∧
    onDragEnd [sampleTodoTask, secondTodoTask] "task-1" true (some sampleTodoTask)
        (DropTarget.task "task-2") true =
      { apiCall := none, finalTasks := [sampleTodoTask, secondTodoTask],
        errorShown := false, successToast := false } := by
  have h := C6_within_column_reorder [sampleTodoTask, secondTodoTask]
    "task-1" "task-2" sampleTodoTask secondTodoTask (by decide) (by decide) (by decide)
  exact ⟨h.1, h.2.1 sampleTodoTask (by decide) (by decide) true⟩

end Crm
